import Mathlib

/-!
Verification development for the commitment/nullifier anti-replay subsystem of
the ComplaintAssist repository.

The embedding below translates `src/server/services/zk-identity.ts`
(class `ZkIdentityService`), the table declarations of `src/shared/schema.ts`,
and the `EncryptionService` of the crypto/encryption source file into Lean.

Conventions of the embedding:
* A TypeScript `async` method that can `throw` becomes a function returning
  `Except` (or a pair of an `Except` with the resulting storage state when the
  method can mutate storage).
* `crypto.createHash('sha256').update(s).digest('hex')` is modelled by an
  arbitrary function `H : String → String` passed explicitly: none of the
  verified properties depend on the actual SHA-256 value, only on the string
  that is fed to the hash, which the embedding reproduces exactly.
* `Date.now().toString()` is modelled by an explicit `nowStr` argument.
* The `storage` module (drizzle/postgres) is not part of the sources; its
  operations are modelled from the specification (§6 collaborator contracts)
  and from the unique-column constraints declared in `src/shared/schema.ts`.
-/

namespace ComplaintAssist

/-- JS `String.prototype.startsWith`, modelled on the character list so that it
is kernel-reducible. -/
def stringStartsWith (s pre : String) : Bool :=
  pre.data.isPrefixOf s.data

/-- Proof artifact, from `interface ZKProof` in `zk-identity.ts`:
`{ proof: string; publicSignals: string[]; nullifierHash: string }`. -/
structure ZKProof where
  proof : String
  publicSignals : List String
  nullifierHash : String
deriving DecidableEq, Repr

/-- Identity bundle, from `interface ZKIdentityData` in `zk-identity.ts`. -/
structure ZKIdentityData where
  commitment : String
  nullifierHash : String
  trapdoor : String
  nullifier : String
  groupId : String
deriving DecidableEq, Repr

/-- One row of the `nullifier_tracker` table of `src/shared/schema.ts`
(the `id` and `createdAt` columns are irrelevant to the claims). The table has
a UNIQUE constraint on `nullifier_hash` alone. -/
structure NullifierEntry where
  nullifierHash : String
  action : String
  topic : String
deriving DecidableEq, Repr

/-- The nullifier ledger: the rows of `nullifier_tracker`. -/
abbrev Ledger := List NullifierEntry

/-- One row of the `zk_identities` table of `src/shared/schema.ts`
(`commitment` and `nullifier_hash` are UNIQUE columns; `is_valid` defaults to
true). -/
structure ZkIdentityRecord where
  commitment : String
  nullifierHash : String
  groupId : String
  isValid : Bool
deriving DecidableEq, Repr

/-- The identity registry: the rows of `zk_identities`. -/
abbrev Registry := List ZkIdentityRecord

/-- Errors of the anti-replay core, named after the specification's taxonomy
(§7). `alreadyUsed` is the `throw new Error('Action already performed with
this identity')` of `generateProof`; `duplicateNullifier` is the unique-key
violation raised by the ledger insert. -/
inductive ZkErr where
  | alreadyUsed
  | duplicateNullifier
deriving DecidableEq, Repr

deriving instance DecidableEq for Except

/-- Modelled from the spec: `storage.checkNullifierUsed(nullifierHash, action,
topic)` — the `storage` module is absent from the sources; §6 specifies
`NullifierLedger.existsFor(nullifierHash, action, topic) → bool`, a point
query for the triple. -/
def checkNullifierUsed (h a t : String) (L : Ledger) : Bool :=
  L.any fun e => e.nullifierHash == h && e.action == a && e.topic == t

/-- Does some ledger row already carry this nullifier hash (the UNIQUE column
of `nullifier_tracker` in `src/shared/schema.ts`)? -/
def nullifierHashPresent (h : String) (L : Ledger) : Bool :=
  L.any fun e => e.nullifierHash == h

/-- Modelled from the spec: `storage.addNullifier(nullifierHash, action,
topic)` — §6 specifies `NullifierLedger.insert` failing `DuplicateNullifier`
atomically if already present, and `src/shared/schema.ts` declares the UNIQUE
constraint on `nullifier_hash` alone. -/
def addNullifier (h a t : String) (L : Ledger) : Except ZkErr Ledger :=
  if nullifierHashPresent h L then .error .duplicateNullifier
  else .ok (⟨h, a, t⟩ :: L)

/-- Modelled from the spec: `storage.getZkIdentityByCommitment(commitment)` —
§6 specifies `IdentityRegistry.getByCommitment(commitment)` returning the
record or none; `commitment` is a UNIQUE column of `zk_identities`. -/
def getZkIdentityByCommitment (c : String) (R : Registry) : Option ZkIdentityRecord :=
  R.find? fun r => r.commitment == c

/-- `ZkIdentityService.generateActionNullifierHash` (zk-identity.ts lines
149-158): `hash.update(nullifier + action + topic)` — bare string
concatenation, no separator — then `'0x' + hash.digest('hex')`. -/
def generateActionNullifierHash (H : String → String) (nullifier action topic : String) : String :=
  "0x" ++ H (nullifier ++ action ++ topic)

/-- `ZkIdentityService.generateZkProofData` (zk-identity.ts lines 160-170):
`hash.update(identity.commitment + action + topic + Date.now().toString())`,
then `'0x' + hash.digest('hex')`. -/
def generateZkProofData (H : String → String) (identity : ZKIdentityData)
    (action topic nowStr : String) : String :=
  "0x" ++ H (identity.commitment ++ action ++ topic ++ nowStr)

/-- Body of `ZkIdentityService.generateProof` (zk-identity.ts lines 47-81)
before the enclosing `catch`: derive the action nullifier, check the ledger,
throw `alreadyUsed` if present, build the proof data, record the nullifier
(which can itself throw `duplicateNullifier`), and return
`{ proof, publicSignals: [commitment, actionNullifierHash, topic],
nullifierHash: actionNullifierHash }`. The returned ledger is the storage
state after the call. -/
def generateProofS (H : String → String) (identity : ZKIdentityData)
    (action topic nowStr : String) (L : Ledger) : Except ZkErr ZKProof × Ledger :=
  let anh := generateActionNullifierHash H identity.nullifier action topic
  if checkNullifierUsed anh action topic L then
    (.error .alreadyUsed, L)
  else
    match addNullifier anh action topic L with
    | .error e => (.error e, L)
    | .ok L' =>
        (.ok ⟨generateZkProofData H identity action topic nowStr,
              [identity.commitment, anh, topic], anh⟩, L')

/-- `ZkIdentityService.generateProof` as observed by its caller: the `catch`
block swallows every inner error and rethrows the generic
`Error('Failed to generate ZK proof')`. -/
def generateProof (H : String → String) (identity : ZKIdentityData)
    (action topic nowStr : String) (L : Ledger) : Except String ZKProof × Ledger :=
  match generateProofS H identity action topic nowStr L with
  | (.ok pf, L') => (.ok pf, L')
  | (.error _, L') => (.error "Failed to generate ZK proof", L')

/-- A concrete stand-in for the SHA-256 hex digest used when evaluating the
service on concrete inputs: a constant 64-hex-character output (every
theorem quantifying over the digest function holds for it). -/
def hConst : String → String := fun _ => String.mk (List.replicate 64 'a')

/-- A concrete identity bundle used for concrete evaluations. -/
def idW : ZKIdentityData :=
  ⟨"0xcommitW", "0xgroupnullW", "0xtrapW", "0xnullsecW", "speaksecure-v1"⟩

/-- The action nullifier hash `generateProof` derives for `idW`, action
`upvote`, topic `REF-001` under `hConst`. -/
def anhW : String := generateActionNullifierHash hConst idW.nullifier "upvote" "REF-001"

/-- The artifact `generateProof` returns for `idW`, `upvote`, `REF-001` on an
empty ledger under `hConst`. -/
def pfW : ZKProof :=
  ⟨generateZkProofData hConst idW "upvote" "REF-001" "1700000000000",
   [idW.commitment, anhW, "REF-001"], anhW⟩

/-- The ledger state right after that successful issuance. -/
def ledgerW : Ledger := [⟨anhW, "upvote", "REF-001"⟩]

/-- A registry holding `idW`'s commitment as a valid identity record. -/
def regW : Registry := [⟨idW.commitment, idW.nullifierHash, idW.groupId, true⟩]

/-- Combined storage state: the nullifier ledger and the identity registry. -/
abbrev St := Ledger × Registry

/-- `ZkIdentityService.verifyProof` (zk-identity.ts lines 83-118), threading
the storage state through each storage call it performs. In the embedding
`publicSignals` is always a list, so the JS falsiness test
`!proof.publicSignals` is identically false and is omitted; the falsiness
tests on the two strings are tests for emptiness.
`const [commitment] = proof.publicSignals` is `headD ""` (the guard has
already ensured the list has three elements). -/
def verifyProof (pf : ZKProof) (action topic : String) (s : St) : Bool × St :=
  if pf.proof = "" ∨ pf.nullifierHash = "" then (false, s)
  else if pf.publicSignals.length ≠ 3 then (false, s)
  else if ¬ stringStartsWith pf.nullifierHash "0x" ∨ pf.nullifierHash.length ≠ 66 then
    (false, s)
  else if checkNullifierUsed pf.nullifierHash action topic s.1 then (false, s)
  else
    match getZkIdentityByCommitment (pf.publicSignals.headD "") s.2 with
    | none => (false, s)
    | some r => (r.isValid, s)

/-- A structurally well-formed artifact (by `verifyProof`'s checks) whose
`nullifierHash` differs from `publicSignals[1]`. -/
def pfMismatch : ZKProof :=
  ⟨"0xdead", ["0xcomX", "0xother", "REF-001"], "0x" ++ String.mk (List.replicate 64 '1')⟩

/-- A registry holding `pfMismatch`'s commitment as a valid record. -/
def regMismatch : Registry := [⟨"0xcomX", "0xgn2", "speaksecure-v1", true⟩]

/-- A structurally well-formed artifact for exercising the identity check. -/
def pfIdent : ZKProof :=
  ⟨"0xproof", ["0xcomY", "0xsig1", "REF-007"], "0x" ++ String.mk (List.replicate 64 '2')⟩

/-- A registry holding `pfIdent`'s commitment as a valid record. -/
def regIdent : Registry := [⟨"0xcomY", "0xgn3", "speaksecure-v1", true⟩]

/-- A structurally broken artifact: `publicSignals` has two elements. -/
def pfBad : ZKProof := ⟨"0xab", ["x", "y"], "0xcd"⟩

/-- Program counter of one in-flight `generateProof` task, reduced to its two
ledger accesses (zk-identity.ts lines 60-70): the `checkNullifierUsed` read
and the `addNullifier` insert. The steps in between touch no shared state.
Terminal states: `doneOk` (proof returned), `failUsed` (the explicit
`Action already performed` throw), `failDup` (the ledger's unique-constraint
violation, surfaced by the `catch` as the generic proof-generation failure,
not as the already-used rejection). -/
inductive IssuePC where
  | toCheck
  | toInsert
  | doneOk
  | failUsed
  | failDup
deriving DecidableEq, Repr

/-- One atomic storage step of a `generateProof` task for action nullifier
hash `anh`, action `a`, topic `t`. Atomicity of each individual ledger
operation is the specification's §5/§6 contract. -/
def issueStep (anh a t : String) : IssuePC → Ledger → IssuePC × Ledger
  | .toCheck, L => if checkNullifierUsed anh a t L then (.failUsed, L) else (.toInsert, L)
  | .toInsert, L =>
      match addNullifier anh a t L with
      | .ok L' => (.doneOk, L')
      | .error _ => (.failDup, L)
  | pc, L => (pc, L)

/-- Run two concurrent `generateProof` tasks (for the same identity, action
and topic, hence the same action nullifier hash) under an interleaving
schedule: `true` steps task A, `false` steps task B. -/
def runSched (anh a t : String) : List Bool → IssuePC × IssuePC × Ledger → IssuePC × IssuePC × Ledger
  | [], s => s
  | b :: rest, (pa, pb, L) =>
      if b then
        runSched anh a t rest ((issueStep anh a t pa L).1, pb, (issueStep anh a t pa L).2)
      else
        runSched anh a t rest (pa, (issueStep anh a t pb L).1, (issueStep anh a t pb L).2)

/-- Number of ledger rows carrying a given nullifier hash. -/
def countHash (h : String) (L : Ledger) : Nat :=
  L.countP fun e => e.nullifierHash == h

/-- Methods provided by the Node.js `crypto` module (the relevant subset, per
the Node.js API documentation): symmetric ciphers are created with
`createCipheriv` and `createDecipheriv`; the module has no `createCipherGCM`
or `createDecipherGCM` member. -/
def nodeCryptoMethods : List String :=
  ["createCipheriv", "createDecipheriv", "createHash", "createHmac",
   "randomBytes", "randomUUID", "timingSafeEqual", "pbkdf2Sync",
   "createSign", "createVerify", "generateKeyPairSync", "createDiffieHellman"]

/-- Property lookup on the `crypto` module object: calling a missing method
raises a `TypeError` at runtime. -/
def cryptoHasMethod (m : String) : Bool := nodeCryptoMethods.contains m

/-- Result shape of `EncryptionService.encrypt`: `{ encryptedContent, iv,
authTag, key }`, all hex strings. -/
structure EncryptedData where
  encryptedContent : String
  iv : String
  authTag : String
  key : String
deriving DecidableEq, Repr

/-- Failures of the content-encryption layer: the generic
`Error('Failed to encrypt data')` and `Error('Failed to decrypt data')`
rethrown by the `catch` blocks. -/
inductive EncErr where
  | encryptionFailed
  | decryptionFailed
deriving DecidableEq, Repr

/-- Model of an AES-256-GCM primitive with the fixed associated data
`speaksecure-auth` already bound: `sealOp (keyHex, ivHex, plaintext)` yields
`(ciphertextHex, authTagHex)`; `unsealOp (keyHex, ivHex, authTagHex,
ciphertextHex)` yields the plaintext or nothing on tag failure. Only
reachable if the crypto module actually provided the cipher constructor the
source calls. -/
structure GcmPrimitive where
  sealOp : String → String → String → String × String
  unsealOp : String → String → String → String → Option String

/-- `EncryptionService.encrypt` (EncryptionService source, lines 324-347):
chooses the key (supplied, else a fresh `randomBytes(32)`), draws a fresh
`randomBytes(16)` iv, then calls `crypto.createCipherGCM(this.algorithm,
encryptionKey, iv)`. The Node `crypto` module has no `createCipherGCM`
member, so that property access yields `undefined`, the call raises
`TypeError: crypto.createCipherGCM is not a function`, and the `catch`
rethrows `Error('Failed to encrypt data')`. `gcm`, `freshKey` and `freshIv`
model the AEAD primitive and the two random draws; they are consulted only in
the branch where the method exists. -/
def encrypt (gcm : GcmPrimitive) (freshKey freshIv : String) (plaintext : String)
    (keyOpt : Option String) : Except EncErr EncryptedData :=
  let keyHex := keyOpt.getD freshKey
  if cryptoHasMethod "createCipherGCM" then
    .ok ⟨(gcm.sealOp keyHex freshIv plaintext).1, freshIv,
         (gcm.sealOp keyHex freshIv plaintext).2, keyHex⟩
  else .error .encryptionFailed

/-- `EncryptionService.decrypt` (lines 349-369): calls
`crypto.createDecipherGCM(this.algorithm, key, iv)`, equally nonexistent in
the Node `crypto` module, so every call fails with the rethrown
`Error('Failed to decrypt data')`. -/
def decrypt (gcm : GcmPrimitive) (d : EncryptedData) : Except EncErr String :=
  if cryptoHasMethod "createDecipherGCM" then
    match gcm.unsealOp d.key d.iv d.authTag d.encryptedContent with
    | some pt => .ok pt
    | none => .error .decryptionFailed
  else .error .decryptionFailed

/-- `EncryptionService.encryptForClient` (lines 372-378):
`JSON.stringify(data)` (the `payloadJson` argument), `this.encrypt(...)`,
then base64 of the JSON of the `EncryptedData` — the outbound encoding is the
`enc` parameter, never reached because `encrypt` always throws. -/
def encryptForClient (gcm : GcmPrimitive) (freshKey freshIv : String)
    (enc : EncryptedData → String) (payloadJson : String) : Except EncErr String :=
  match encrypt gcm freshKey freshIv payloadJson none with
  | .ok d => .ok (enc d)
  | .error e => .error e

/-! ## Helper lemmas -/

theorem checkNullifierUsed_cons_self (h a t : String) (L : Ledger) :
    checkNullifierUsed h a t (⟨h, a, t⟩ :: L) = true := by
  simp [checkNullifierUsed]

theorem checkNullifierUsed_of_hashFree {h : String} {L : Ledger} (a t : String)
    (hf : nullifierHashPresent h L = false) : checkNullifierUsed h a t L = false := by
  simp only [nullifierHashPresent, List.any_eq_false] at hf
  simp only [checkNullifierUsed, List.any_eq_false]
  intro e he
  simp [hf e he]

theorem nullifierHashPresent_cons_self (h a t : String) (L : Ledger) :
    nullifierHashPresent h (⟨h, a, t⟩ :: L) = true := by
  simp [nullifierHashPresent]

theorem addNullifier_of_hashFree {h : String} {L : Ledger} (a t : String)
    (hf : nullifierHashPresent h L = false) :
    addNullifier h a t L = .ok (⟨h, a, t⟩ :: L) := by
  simp [addNullifier, hf]

theorem addNullifier_cons_self (h a t a' t' : String) (L : Ledger) :
    addNullifier h a' t' (⟨h, a, t⟩ :: L) = .error .duplicateNullifier := by
  simp [addNullifier, nullifierHashPresent_cons_self]

theorem countHash_eq_zero_of_hashFree {h : String} {L : Ledger}
    (hf : nullifierHashPresent h L = false) : countHash h L = 0 := by
  simp only [nullifierHashPresent, List.any_eq_false] at hf
  simp only [countHash, List.countP_eq_zero]
  intro e he
  simp [hf e he]

theorem countHash_cons_self_of_hashFree {h : String} {L : Ledger} (a t : String)
    (hf : nullifierHashPresent h L = false) :
    countHash h (⟨h, a, t⟩ :: L) = 1 := by
  have h0 : countHash h L = 0 := countHash_eq_zero_of_hashFree hf
  unfold countHash at h0 ⊢
  simp [List.countP_cons, h0]

/-- `verifyProof` leaves the storage state untouched: every branch of the
pipeline returns the state it was given, because the method only performs the
two read calls. -/
theorem verifyProof_preserves_state (pf : ZKProof) (a t : String) (s : St) :
    (verifyProof pf a t s).2 = s := by
  unfold verifyProof
  split
  · rfl
  split
  · rfl
  split
  · rfl
  split
  · rfl
  split <;> rfl

/-- Shape of a successful `generateProofS` call: the returned artifact and
ledger are fully determined. -/
theorem generateProofS_ok {H : String → String} {identity : ZKIdentityData}
    {action topic nowStr : String} {L : Ledger} {pf : ZKProof} {L' : Ledger}
    (hok : generateProofS H identity action topic nowStr L = (.ok pf, L')) :
    pf = ⟨generateZkProofData H identity action topic nowStr,
          [identity.commitment, generateActionNullifierHash H identity.nullifier action topic,
           topic],
          generateActionNullifierHash H identity.nullifier action topic⟩ ∧
    L' = ⟨generateActionNullifierHash H identity.nullifier action topic, action, topic⟩ :: L := by
  simp only [generateProofS, addNullifier] at hok
  split at hok
  · simp [Prod.ext_iff] at hok
  · split at hok
    · simp [Prod.ext_iff] at hok
    next L2 heq =>
      split at heq
      · simp at heq
      · simp only [Except.ok.injEq] at heq
        simp only [Prod.mk.injEq, Except.ok.injEq] at hok
        subst heq
        exact ⟨hok.1.symm, hok.2.symm⟩

/-! ## Claim theorems -/

/-- C2 (confirmed): for every identity bundle and (action, topic) pair whose
derived nullifier hash is not yet in the ledger, the first `generateProof`
call succeeds and returns the proof artifact, and a second call with the same
identity, action and topic fails at the already-used check with the
`AlreadyUsed` rejection (`throw new Error('Action already performed with this
identity')`), surfaced through the `catch` as the generic failure, with no
artifact returned. -/
theorem c2_first_issue_succeeds_second_fails_already_used
    (H : String → String) (identity : ZKIdentityData) (action topic n1 n2 : String)
    (L : Ledger)
    (hfree : nullifierHashPresent
      (generateActionNullifierHash H identity.nullifier action topic) L = false) :
    generateProofS H identity action topic n1 L =
      (.ok ⟨generateZkProofData H identity action topic n1,
            [identity.commitment,
             generateActionNullifierHash H identity.nullifier action topic, topic],
            generateActionNullifierHash H identity.nullifier action topic⟩,
       ⟨generateActionNullifierHash H identity.nullifier action topic, action, topic⟩ :: L) ∧
    (generateProofS H identity action topic n2
        (⟨generateActionNullifierHash H identity.nullifier action topic, action, topic⟩ :: L)).1 =
      .error .alreadyUsed ∧
    (generateProof H identity action topic n2
        (⟨generateActionNullifierHash H identity.nullifier action topic, action, topic⟩ :: L)).1 =
      .error "Failed to generate ZK proof" := by
  refine ⟨?_, ?_, ?_⟩
  · simp [generateProofS, checkNullifierUsed_of_hashFree action topic hfree,
      addNullifier_of_hashFree action topic hfree]
  · simp [generateProofS, checkNullifierUsed_cons_self]
  · simp [generateProof, generateProofS, checkNullifierUsed_cons_self]

/-- Witness for C2 at a concrete input. -/
theorem c2_witness :
    nullifierHashPresent anhW [] = false ∧
    generateProofS hConst idW "upvote" "REF-001" "1700000000000" [] = (.ok pfW, ledgerW) ∧
    (generateProofS hConst idW "upvote" "REF-001" "1700000000001" ledgerW).1 =
      .error .alreadyUsed ∧
    (generateProof hConst idW "upvote" "REF-001" "1700000000001" ledgerW).1 =
      .error "Failed to generate ZK proof" :=
  ⟨by decide,
   c2_first_issue_succeeds_second_fails_already_used hConst idW "upvote" "REF-001"
     "1700000000000" "1700000000001" [] (by decide)⟩

/-- C5 (confirmed): when `generateProof` fails because the nullifier is
already recorded for (action, topic), the call is terminal with no proof
produced and no ledger mutation: the ledger after the failed call is the
ledger before it. -/
theorem c5_already_used_failure_leaves_ledger_unchanged
    (H : String → String) (identity : ZKIdentityData) (action topic nowStr : String)
    (L : Ledger)
    (hused : checkNullifierUsed
      (generateActionNullifierHash H identity.nullifier action topic) action topic L = true) :
    generateProofS H identity action topic nowStr L = (.error .alreadyUsed, L) ∧
    generateProof H identity action topic nowStr L =
      (.error "Failed to generate ZK proof", L) := by
  refine ⟨?_, ?_⟩ <;> simp [generateProof, generateProofS, hused]

/-- Witness for C5 at a concrete input. -/
theorem c5_witness :
    checkNullifierUsed anhW "upvote" "REF-001" ledgerW = true ∧
    generateProofS hConst idW "upvote" "REF-001" "1700000000002" ledgerW =
      (.error .alreadyUsed, ledgerW) ∧
    generateProof hConst idW "upvote" "REF-001" "1700000000002" ledgerW =
      (.error "Failed to generate ZK proof", ledgerW) :=
  ⟨by decide,
   c5_already_used_failure_leaves_ledger_unchanged hConst idW "upvote" "REF-001"
     "1700000000002" ledgerW (by decide)⟩

/-- C6 (confirmed): `generateProof` consults neither the supplied trapdoor
nor any registry — it does not even take the registry as an input — so for
every commitment string `c`, if the nullifier hash derived from the supplied
nullifier secret is unused, the call succeeds and the returned artifact's
`publicSignals[0]` is exactly `c`, binding an arbitrary (possibly
unregistered) commitment to that nullifier. -/
theorem c6_arbitrary_commitment_bound_to_nullifier
    (H : String → String) (c gnh trap nsec gid action topic nowStr : String) (L : Ledger)
    (hfree : nullifierHashPresent (generateActionNullifierHash H nsec action topic) L = false) :
    generateProofS H ⟨c, gnh, trap, nsec, gid⟩ action topic nowStr L =
      (.ok ⟨generateZkProofData H ⟨c, gnh, trap, nsec, gid⟩ action topic nowStr,
            [c, generateActionNullifierHash H nsec action topic, topic],
            generateActionNullifierHash H nsec action topic⟩,
       ⟨generateActionNullifierHash H nsec action topic, action, topic⟩ :: L) ∧
    [c, generateActionNullifierHash H nsec action topic, topic].headD "" = c := by
  refine ⟨?_, rfl⟩
  simp [generateProofS, checkNullifierUsed_of_hashFree action topic hfree,
    addNullifier_of_hashFree action topic hfree]

/-- Witness for C6 at a concrete input: a commitment registered nowhere. -/
theorem c6_witness :
    nullifierHashPresent (generateActionNullifierHash hConst "0xsecretZ" "upvote" "REF-009") [] =
      false ∧
    generateProofS hConst ⟨"unregistered-commitment", "0xg", "0xt", "0xsecretZ", "g1"⟩
        "upvote" "REF-009" "1700000000003" [] =
      (.ok ⟨generateZkProofData hConst
              ⟨"unregistered-commitment", "0xg", "0xt", "0xsecretZ", "g1"⟩
              "upvote" "REF-009" "1700000000003",
            ["unregistered-commitment",
             generateActionNullifierHash hConst "0xsecretZ" "upvote" "REF-009", "REF-009"],
            generateActionNullifierHash hConst "0xsecretZ" "upvote" "REF-009"⟩,
       ⟨generateActionNullifierHash hConst "0xsecretZ" "upvote" "REF-009",
        "upvote", "REF-009"⟩ :: []) ∧
    ["unregistered-commitment",
     generateActionNullifierHash hConst "0xsecretZ" "upvote" "REF-009",
     "REF-009"].headD "" = "unregistered-commitment" :=
  ⟨by decide,
   c6_arbitrary_commitment_bound_to_nullifier hConst "unregistered-commitment" "0xg" "0xt"
     "0xsecretZ" "g1" "upvote" "REF-009" "1700000000003" [] (by decide)⟩

/-- C7 (confirmed): the action-nullifier derivation hashes the bare
concatenation `nullifier + action + topic`, so the distinct (action, topic)
pairs ("ab", "c") and ("a", "bc") collide for every nullifier secret and
every digest function: one slot aliases the other. -/
theorem c7_concatenation_aliases_action_topic_pairs
    (H : String → String) (n : String) :
    (("ab", "c") : String × String) ≠ ("a", "bc") ∧
    generateActionNullifierHash H n "ab" "c" = generateActionNullifierHash H n "a" "bc" := by
  refine ⟨by decide, ?_⟩
  unfold generateActionNullifierHash
  have hcat : (n ++ "ab") ++ "c" = (n ++ "a") ++ "bc" := by
    rw [String.append_assoc, String.append_assoc]
    exact congrArg (n ++ ·) (by decide)
  rw [hcat]

/-- C9 (confirmed): `verifyProof` performs only the two read calls
(`checkNullifierUsed`, `getZkIdentityByCommitment`); whatever boolean it
returns, the ledger and the registry after the call equal the state before
it. -/
theorem c9_verify_does_not_mutate_storage (pf : ZKProof) (action topic : String) (s : St) :
    (verifyProof pf action topic s).2 = s :=
  verifyProof_preserves_state pf action topic s

/-- C1 (counterexample): at a concrete input, `generateProof` succeeds and
returns the artifact `pfW`, yet `verifyProof` on `pfW` with the same action
and topic, run against the post-issuance storage (with the commitment validly
registered), returns false — not true as the claim states: issuance recorded
the nullifier, and `verifyProof` rejects every recorded nullifier as a
double-spending attempt. -/
theorem c1_counterexample :
    generateProofS hConst idW "upvote" "REF-001" "1700000000000" [] = (.ok pfW, ledgerW) ∧
    getZkIdentityByCommitment (pfW.publicSignals.headD "") regW =
      some ⟨idW.commitment, idW.nullifierHash, idW.groupId, true⟩ ∧
    (verifyProof pfW "upvote" "REF-001" (ledgerW, regW)).1 = false := by
  decide

/-- C1 (corrected): for every artifact returned by a successful
`generateProof` call, `verifyProof` with the same action and topic against
the post-issuance state returns false (the replay check finds the nullifier
that issuance just recorded), and a second `verifyProof` call on the state
left by the first still returns false — verification does not mutate the
ledger, so the answer is stable. -/
theorem c1_issued_proof_fails_verification
    (H : String → String) (identity : ZKIdentityData) (action topic nowStr : String)
    (L : Ledger) (R : Registry) (pf : ZKProof) (L' : Ledger)
    (hok : generateProofS H identity action topic nowStr L = (.ok pf, L')) :
    (verifyProof pf action topic (L', R)).1 = false ∧
    (verifyProof pf action topic ((verifyProof pf action topic (L', R)).2)).1 = false := by
  obtain ⟨hpf, hL⟩ := generateProofS_ok hok
  subst hpf hL
  have hfst : (verifyProof
      ⟨generateZkProofData H identity action topic nowStr,
       [identity.commitment, generateActionNullifierHash H identity.nullifier action topic,
        topic],
       generateActionNullifierHash H identity.nullifier action topic⟩
      action topic
      (⟨generateActionNullifierHash H identity.nullifier action topic, action, topic⟩ :: L,
       R)).1 = false := by
    unfold verifyProof
    split
    · rfl
    split
    · rfl
    split
    · rfl
    split
    · rfl
    next hcond => simp [checkNullifierUsed_cons_self] at hcond
  exact ⟨hfst, by rw [verifyProof_preserves_state]; exact hfst⟩

/-- Witness for the corrected C1 at a concrete input. -/
theorem c1_witness :
    (verifyProof pfW "upvote" "REF-001" (ledgerW, regW)).1 = false ∧
    (verifyProof pfW "upvote" "REF-001"
       ((verifyProof pfW "upvote" "REF-001" (ledgerW, regW)).2)).1 = false :=
  c1_issued_proof_fails_verification hConst idW "upvote" "REF-001" "1700000000000"
    [] regW pfW ledgerW (by decide)

/-- C4 (counterexample): a concrete artifact whose `nullifierHash` is NOT
equal to `publicSignals[1]` — which the claim says must make `verifyProof`
return false — passes the implemented checks and verifies true (empty
ledger, commitment validly registered). The code never compares
`nullifierHash` with `publicSignals[1]`. -/
theorem c4_counterexample :
    pfMismatch.publicSignals.get? 1 = some "0xother" ∧
    pfMismatch.nullifierHash ≠ "0xother" ∧
    (verifyProof pfMismatch "upvote" "REF-001" ([], regMismatch)).1 = true := by
  decide

/-- C4 (corrected): `verifyProof` returns false whenever `proofBlob` is
empty, or `publicSignals` does not have exactly 3 elements, or
`nullifierHash` is empty, does not start with `0x`, or does not have length
66. (The implemented structural check inspects nothing else: the 64
characters after `0x` are not required to be hex digits, and equality of
`nullifierHash` with `publicSignals[1]` is not checked.) -/
theorem c4_structural_failures_verify_false
    (pf : ZKProof) (action topic : String) (s : St)
    (h : pf.proof = "" ∨ pf.publicSignals.length ≠ 3 ∨ pf.nullifierHash = "" ∨
         stringStartsWith pf.nullifierHash "0x" = false ∨ pf.nullifierHash.length ≠ 66) :
    (verifyProof pf action topic s).1 = false := by
  unfold verifyProof
  split
  · rfl
  next h1 =>
    split
    · rfl
    next h2 =>
      split
      · rfl
      next h3 =>
        exfalso
        obtain ⟨hp, hn⟩ := not_or.mp h1
        obtain ⟨hsw, h66⟩ := not_or.mp h3
        rcases h with h | h | h | h | h
        · exact hp h
        · exact h2 h
        · exact hn h
        · rw [not_not.mp hsw] at h
          exact Bool.noConfusion h
        · exact h66 h

/-- Witness for the corrected C4 at a concrete input (two public signals). -/
theorem c4_witness :
    (pfBad.proof = "" ∨ pfBad.publicSignals.length ≠ 3 ∨ pfBad.nullifierHash = "" ∨
     stringStartsWith pfBad.nullifierHash "0x" = false ∨ pfBad.nullifierHash.length ≠ 66) ∧
    (verifyProof pfBad "upvote" "REF-001" ([], [])).1 = false :=
  ⟨by decide, c4_structural_failures_verify_false pfBad "upvote" "REF-001" ([], []) (by decide)⟩

/-- C8 (confirmed): for every artifact passing the structural checks whose
nullifier is not recorded for (action, topic), `verifyProof`'s outcome is
exactly the identity check on `publicSignals[0]`: false when no record
exists (unknown commitment), false when the record has `isValid = false`
(revoked identity), true exactly when a record exists with
`isValid = true`. -/
theorem c8_outcome_is_identity_check
    (pf : ZKProof) (action topic : String) (L : Ledger) (R : Registry)
    (h1 : pf.proof ≠ "") (h2 : pf.publicSignals.length = 3)
    (h3 : stringStartsWith pf.nullifierHash "0x" = true) (h4 : pf.nullifierHash.length = 66)
    (h5 : checkNullifierUsed pf.nullifierHash action topic L = false) :
    (verifyProof pf action topic (L, R)).1 =
      (match getZkIdentityByCommitment (pf.publicSignals.headD "") R with
       | none => false
       | some r => r.isValid) := by
  have hn : pf.nullifierHash ≠ "" := by
    intro he
    rw [he] at h4
    simp at h4
  unfold verifyProof
  rw [if_neg (by push_neg; exact ⟨h1, hn⟩)]
  rw [if_neg (by simp [h2])]
  rw [if_neg (by simp [h3, h4])]
  rw [if_neg (by simp [h5])]
  cases hh : getZkIdentityByCommitment (pf.publicSignals.headD "") R with
  | none => simp [hh]
  | some r => simp [hh]

/-- Witness for C8 at a concrete input: valid registered commitment, so the
match evaluates to true. -/
theorem c8_witness :
    checkNullifierUsed pfIdent.nullifierHash "upvote" "REF-007" [] = false ∧
    (verifyProof pfIdent "upvote" "REF-007" ([], regIdent)).1 =
      (match getZkIdentityByCommitment (pfIdent.publicSignals.headD "") regIdent with
       | none => false
       | some r => r.isValid) ∧
    (verifyProof pfIdent "upvote" "REF-007" ([], regIdent)).1 = true :=
  ⟨by decide,
   c8_outcome_is_identity_check pfIdent "upvote" "REF-007" [] regIdent
     (by decide) (by decide) (by decide) (by decide) (by decide),
   by decide⟩

/-- C3 (counterexample): under the raced interleaving A-check, B-check,
A-insert, B-insert (schedule `[true, false, true, false]`) the loser ends in
`failDup` — the ledger's duplicate-key violation, which `generateProof`'s
`catch` surfaces as the generic proof-generation failure — and not in
`failUsed`, the `AlreadyUsed` rejection the claim says the loser observes
even when the existence checks raced. -/
theorem c3_counterexample :
    runSched anhW "upvote" "REF-001" [true, false, true, false]
      (.toCheck, .toCheck, []) = (.doneOk, .failDup, ledgerW) ∧
    IssuePC.failDup ≠ IssuePC.failUsed := by
  decide

/-- C3 (corrected): for every 4-step fair interleaving of two concurrent
`generateProof` tasks for the same identity, action and topic starting from a
ledger not containing the derived nullifier hash, exactly one task commits
(`doneOk`) while the other fails — with `failUsed` (the `AlreadyUsed`
rejection) when its existence check ran after the winner's insert, or with
`failDup` (the unique-constraint violation, surfaced as a generic failure)
when the checks raced — and the final ledger holds exactly one entry for that
nullifier hash. -/
theorem c3_one_winner_one_ledger_entry
    (H : String → String) (identity : ZKIdentityData) (action topic : String)
    (L : Ledger) (sched : List Bool) (pa pb : IssuePC) (Lfin : Ledger)
    (hlen : sched.length = 4) (hcnt : sched.count true = 2)
    (hfree : nullifierHashPresent
      (generateActionNullifierHash H identity.nullifier action topic) L = false)
    (hrun : runSched (generateActionNullifierHash H identity.nullifier action topic)
      action topic sched (.toCheck, .toCheck, L) = (pa, pb, Lfin)) :
    ((pa = .doneOk ∧ (pb = .failUsed ∨ pb = .failDup)) ∨
     (pb = .doneOk ∧ (pa = .failUsed ∨ pa = .failDup))) ∧
    countHash (generateActionNullifierHash H identity.nullifier action topic) Lfin = 1 := by
  set anh := generateActionNullifierHash H identity.nullifier action topic with hanh
  have e1 : checkNullifierUsed anh action topic L = false :=
    checkNullifierUsed_of_hashFree action topic hfree
  have e2 : addNullifier anh action topic L = .ok (⟨anh, action, topic⟩ :: L) :=
    addNullifier_of_hashFree action topic hfree
  have e3 : checkNullifierUsed anh action topic (⟨anh, action, topic⟩ :: L) = true :=
    checkNullifierUsed_cons_self anh action topic L
  have e4 : addNullifier anh action topic (⟨anh, action, topic⟩ :: L) =
      .error .duplicateNullifier :=
    addNullifier_cons_self anh action topic action topic L
  have e5 : countHash anh (⟨anh, action, topic⟩ :: L) = 1 :=
    countHash_cons_self_of_hashFree action topic hfree
  rcases sched with _ | ⟨b1, _ | ⟨b2, _ | ⟨b3, _ | ⟨b4, _ | ⟨b5, rest⟩⟩⟩⟩⟩ <;>
    try simp at hlen
  cases b1 <;> cases b2 <;> cases b3 <;> cases b4 <;>
      (try (exfalso; revert hcnt; decide)) <;>
    · simp [runSched, issueStep, e1, e2, e3, e4] at hrun
      obtain ⟨h1, h2, h3⟩ := hrun
      subst h1
      subst h2
      subst h3
      simp [e5]

/-- Witness for the corrected C3 at a concrete input: schedule A, A, B, B. -/
theorem c3_witness :
    (((IssuePC.doneOk = IssuePC.doneOk ∧
       (IssuePC.failUsed = IssuePC.failUsed ∨ IssuePC.failUsed = IssuePC.failDup)) ∨
      (IssuePC.failUsed = IssuePC.doneOk ∧
       (IssuePC.doneOk = IssuePC.failUsed ∨ IssuePC.doneOk = IssuePC.failDup))) ∧
     countHash anhW ledgerW = 1) :=
  c3_one_winner_one_ledger_entry hConst idW "upvote" "REF-001" [] [true, true, false, false]
    .doneOk .failUsed ledgerW (by decide) (by decide) (by decide) (by decide)

/-- C10 (code bug): `EncryptionService.encrypt` calls
`crypto.createCipherGCM` and `decrypt` calls `crypto.createDecipherGCM`,
neither of which exists in the Node `crypto` module, so every encryption and
every decryption throws (rethrown as the generic failures) for every input —
`decrypt(encrypt(p))` can never yield `p`, and `encryptForClient` fails for
every payload as well. -/
theorem c10_encryption_never_succeeds
    (gcm : GcmPrimitive) (freshKey freshIv plaintext : String) (keyOpt : Option String)
    (enc : EncryptedData → String) (payloadJson : String) :
    encrypt gcm freshKey freshIv plaintext keyOpt = .error .encryptionFailed ∧
    (∀ d : EncryptedData, decrypt gcm d = .error .decryptionFailed) ∧
    encryptForClient gcm freshKey freshIv enc payloadJson = .error .encryptionFailed := by
  have hc : cryptoHasMethod "createCipherGCM" = false := by decide
  have hd : cryptoHasMethod "createDecipherGCM" = false := by decide
  refine ⟨?_, fun d => ?_, ?_⟩
  · simp [encrypt, hc]
  · simp [decrypt, hd]
  · simp [encryptForClient, encrypt, hc]

end ComplaintAssist
